import Mathlib

/-!
Shallow embedding of `scripts/setup_deps.py`, the single source file of the
repository: a cross-platform setup script that checks build tools, clones and
bootstraps vcpkg, and installs dependencies for a computed or overridden
triplet.

The host environment the script observes (platform strings, tools resolvable
on the search path, existing filesystem paths, and the outcome of each
external command) is modelled by the structure `Env`.  Each Python function is
translated to a Lean function over `Env`; printing is modelled by returning
the list of printed lines, executed external commands are collected into a
trace (a list of argument vectors), and a raised Python exception is modelled
by `Except` with the error type `PyErr`.  Environment-variable merging in
`run_command` is not modelled: no claim depends on it, and `Env.run` abstracts
the whole process execution.
-/

namespace SetupDeps

/-- The observable outcome of running one external process:
exit code, captured standard output and captured standard error. -/
structure CmdResult where
  returncode : Int
  stdout : String
  stderr : String

/-- The host environment as seen by the script:
`system` models `platform.system()`, `machine` models `platform.machine()`,
`path_tools` is the set of executable names `shutil.which` resolves,
`fs_paths` is the set of filesystem paths for which `Path.exists()` holds,
and `run` gives the outcome of executing an argument vector in an optional
working directory. -/
structure Env where
  system : String
  machine : String
  path_tools : List String
  fs_paths : List String
  run : List String → Option String → CmdResult

/-- Python exceptions raised by the script:
`subprocess.CalledProcessError` (its `stderr` attribute is `None` when output
was not captured) and `RuntimeError`. -/
inductive PyErr where
  | calledProcessError (returncode : Int) (stderr : Option String)
  | runtimeError (msg : String)
  deriving DecidableEq, Repr

/-- Python `str.lower()` for the ASCII strings the script compares (platform and
machine names).  Defined over the character list, character by character, so
that concrete instances evaluate inside the kernel; it agrees with
`String.toLower`. -/
def pyLower (s : String) : String :=
  String.mk (s.data.map Char.toLower)

/-- The function `get_platform`: `platform.system().lower()`. -/
def get_platform (env : Env) : String :=
  pyLower env.system

/-- The function `get_triplet`: the fixed OS/architecture lookup table.
Windows maps to the mingw triplet, darwin distinguishes arm64 from every
other machine value, and every other system falls through to `x64-linux`. -/
def get_triplet (env : Env) : String :=
  let system := pyLower env.system
  let machine := pyLower env.machine
  if system = "windows" then
    "x64-mingw-static"
  else if system = "darwin" then
    if machine = "arm64" then "arm64-osx" else "x64-osx"
  else
    "x64-linux"

/-- A command as accepted by `run_command`: either a single string or an
argument list. -/
inductive Cmd where
  | ofString (s : String)
  | ofList (l : List String)

/-- Python `str.split()` with no separator, on a character list: split on runs
of whitespace, discarding empty pieces.  `acc` holds the current token in
reverse. -/
def splitWsAux : List Char → List Char → List (List Char)
  | [], acc => if acc = [] then [] else [acc.reverse]
  | c :: rest, acc =>
    if c.isWhitespace then
      (if acc = [] then [] else [acc.reverse]) ++ splitWsAux rest []
    else
      splitWsAux rest (c :: acc)

/-- Python `s.split()`: whitespace-run splitting of a string. -/
def pySplit (s : String) : List String :=
  (splitWsAux s.data []).map fun l => String.mk l

/-- Python `str.strip()` with no argument: remove leading and trailing
whitespace.  Defined over the character list so that concrete instances
evaluate inside the kernel; it agrees with `String.trim`. -/
def pyStrip (s : String) : String :=
  String.mk
    (((s.data.dropWhile Char.isWhitespace).reverse.dropWhile
        Char.isWhitespace).reverse)

/-- The argument vector `run_command` executes: a string command is split on
whitespace, a list command is used as is. -/
def argvOf : Cmd → List String
  | .ofString s => pySplit s
  | .ofList l => l

/-- The text shown in the `Running:` line:
`' '.join(cmd) if isinstance(cmd, list) else cmd`. -/
def cmdDisplay : Cmd → String
  | .ofString s => s
  | .ofList l => String.intercalate " " l

/-- The result of one `run_command` call: the argument vectors actually
passed to `subprocess.run`, the printed lines, and the returned value or the
raised exception. -/
structure RunResult where
  trace : List (List String)
  printed : List String
  out : Except PyErr (Option String)

/-- The function `run_command`: print the command, execute it, and in capture mode return
trimmed standard output on success; on a nonzero exit print the failure (and
the captured standard error when nonempty) and raise
`subprocess.CalledProcessError`. -/
def run_command (env : Env) (cmd : Cmd) (cwd : Option String) (capture : Bool) :
    RunResult :=
  let argv := argvOf cmd
  let header := "Running: " ++ cmdDisplay cmd
  let r := env.run argv cwd
  if r.returncode = 0 then
    if capture then
      ⟨[argv], [header], .ok (some (pyStrip r.stdout))⟩
    else
      ⟨[argv], [header], .ok none⟩
  else
    let failLine := "Command failed with exit code " ++ toString r.returncode
    if capture then
      ⟨[argv],
       [header, failLine] ++ (if r.stderr ≠ "" then ["Error: " ++ r.stderr] else []),
       .error (.calledProcessError r.returncode (some r.stderr))⟩
    else
      ⟨[argv], [header, failLine], .error (.calledProcessError r.returncode none)⟩

/-- The function `check_tool`: `shutil.which(tool) is not None`. -/
def check_tool (env : Env) (tool : String) : Bool :=
  env.path_tools.contains tool

/-- The required-tool list built by `check_dependencies`: the baseline
`git`, `cmake`, `ninja` plus the platform compiler (clang on windows and
darwin, gcc on everything else). -/
def required_tools (env : Env) : List String :=
  let system := pyLower env.system
  ["git", "cmake", "ninja"] ++
    (if system = "windows" then ["clang"]
     else if system = "darwin" then ["clang"]
     else ["gcc"])

/-- The function `check_dependencies`: returns whether every required tool resolves on the
search path, printing the missing tools and a platform-specific remediation
hint when any is absent.  The second component is the list of printed lines. -/
def check_dependencies (env : Env) : Bool × List String :=
  let system := pyLower env.system
  let missing := (required_tools env).filter fun t => ! check_tool env t
  if missing.isEmpty then
    (true, [])
  else
    (false,
     ["Missing required tools: " ++ String.intercalate ", " missing,
      "\nPlease install the missing tools:",
      if system = "linux" then
        "  sudo apt-get install build-essential cmake ninja-build git"
      else if system = "darwin" then
        "  brew install cmake ninja git"
      else
        "  choco install cmake ninja git llvm"])

/-- The function `setup_vcpkg`: clone vcpkg into `<project_root>/vcpkg` when that directory
does not exist, otherwise pull; then run the platform bootstrap script with
`-disableMetrics`.  Returns the command trace, the printed lines, and the
vcpkg directory (or the propagated exception of a failed command). -/
def setup_vcpkg (env : Env) (project_root : String) (_verbose : Bool) :
    List (List String) × List String × Except PyErr String :=
  let vcpkg_dir := project_root ++ "/vcpkg"
  let step1 :=
    if ! env.fs_paths.contains vcpkg_dir then
      ("Cloning vcpkg...",
       run_command env
         (.ofList ["git", "clone", "https://github.com/microsoft/vcpkg.git",
                   vcpkg_dir])
         none false)
    else
      ("Updating vcpkg...",
       run_command env (.ofList ["git", "pull"]) (some vcpkg_dir) false)
  match step1.2.out with
  | .error e => (step1.2.trace, step1.1 :: step1.2.printed, .error e)
  | .ok _ =>
    let system := pyLower env.system
    let step2 :=
      if system = "windows" then
        run_command env
          (.ofList [vcpkg_dir ++ "/bootstrap-vcpkg.bat", "-disableMetrics"])
          (some vcpkg_dir) false
      else
        run_command env
          (.ofList ["sh", vcpkg_dir ++ "/bootstrap-vcpkg.sh", "-disableMetrics"])
          (some vcpkg_dir) false
    match step2.out with
    | .error e =>
      (step1.2.trace ++ step2.trace, step1.1 :: (step1.2.printed ++ step2.printed),
       .error e)
    | .ok _ =>
      (step1.2.trace ++ step2.trace, step1.1 :: (step1.2.printed ++ step2.printed),
       .ok vcpkg_dir)

/-- The platform-specific executable name `install_dependencies` looks for
inside the vcpkg directory. -/
def vcpkg_exe_name (env : Env) : String :=
  if pyLower env.system = "windows" then "vcpkg.exe" else "vcpkg"

/-- The function `install_dependencies`: raise `RuntimeError` naming the missing executable
path when the vcpkg executable is not on disk; otherwise invoke it with the
triplet, manifest-root and install-root flags (plus `--debug` when verbose).
Returns the command trace, the printed lines, and the outcome. -/
def install_dependencies (env : Env) (vcpkg_dir project_root triplet : String)
    (verbose : Bool) :
    List (List String) × List String × Except PyErr (Option String) :=
  let vcpkg_exe := vcpkg_dir ++ "/" ++ vcpkg_exe_name env
  if ! env.fs_paths.contains vcpkg_exe then
    ([], [], .error (.runtimeError ("vcpkg executable not found at " ++ vcpkg_exe)))
  else
    let cmd :=
      [vcpkg_exe, "install",
       "--triplet=" ++ triplet,
       "--x-manifest-root=" ++ project_root,
       "--x-install-root=" ++ (project_root ++ "/vcpkg_installed")]
    let cmd := if verbose then cmd ++ ["--debug"] else cmd
    let r := run_command env (.ofList cmd) (some project_root) false
    (r.trace, ("Installing dependencies for triplet: " ++ triplet) :: r.printed,
     r.out)

/-- The parsed command-line flags.  `argparse` leaves `triplet` and
`vcpkg_root` as `None` when the flag is absent and stores the given string
(possibly empty) when present. -/
structure Args where
  verbose : Bool
  check : Bool
  triplet : Option String
  vcpkg_root : Option String

/-- One run of `main`: the returned exit code (or the uncaught exception that
escapes to the process), the trace of executed external commands, and the
printed lines. -/
structure MainResult where
  exit : Except PyErr Int
  trace : List (List String)
  printed : List String

/-- Python truthiness of an optional string flag value: `None` and the empty
string are falsy. -/
def truthy : Option String → Bool
  | none => false
  | some s => s != ""

/-- Python `x or y` on an optional string `x` and string `y`. -/
def py_or_str : Option String → String → String
  | none, y => y
  | some s, y => if s = "" then y else s

/-- The triplet `main` passes to the install step:
`args.triplet or get_triplet()`. -/
def resolved_triplet (env : Env) (args : Args) : String :=
  py_or_str args.triplet (get_triplet env)

/-- The tail of `main` after a vcpkg directory has been determined: run the
install step and on success print the completion message and return 0.
`tr0`/`pr0` are the trace and printed lines accumulated so far. -/
def finish_install (env : Env) (verbose : Bool)
    (project_root triplet vdir : String)
    (tr0 : List (List String)) (pr0 : List String) : MainResult :=
  match install_dependencies env vdir project_root triplet verbose with
  | (tr, pr, .error e) => ⟨.error e, tr0 ++ tr, pr0 ++ pr⟩
  | (tr, pr, .ok _) =>
    ⟨.ok 0, tr0 ++ tr,
     pr0 ++ pr ++
       ["\nSetup complete!",
        "Dependencies installed to: " ++
          (project_root ++ "/vcpkg_installed" ++ "/" ++ triplet)]⟩

/-- The function `main`: check dependencies (exit 1 when any tool is missing), honour
`--check` (exit 0), resolve the triplet, validate `--vcpkg-root` when truthy
(exit 1 when the path does not exist) or run `setup_vcpkg`, then install.
`project_root` is the parent of the script directory, passed in as a value. -/
def main (env : Env) (args : Args) (project_root : String) : MainResult :=
  let pr0 := ["Project root: " ++ project_root,
              "Platform: " ++ get_platform env]
  let cd := check_dependencies env
  if ! cd.1 then
    ⟨.ok 1, [], pr0 ++ cd.2⟩
  else if args.check then
    ⟨.ok 0, [], pr0 ++ cd.2 ++ ["All required tools are available."]⟩
  else
    let triplet := resolved_triplet env args
    let pr1 := pr0 ++ cd.2 ++ ["Using triplet: " ++ triplet]
    if truthy args.vcpkg_root then
      let vdir := (args.vcpkg_root).getD ""
      if ! env.fs_paths.contains vdir then
        ⟨.ok 1, [],
         pr1 ++ ["Error: Specified vcpkg root does not exist: " ++ vdir]⟩
      else
        finish_install env args.verbose project_root triplet vdir [] pr1
    else
      match setup_vcpkg env project_root args.verbose with
      | (tr, pr, .error e) => ⟨.error e, tr, pr1 ++ pr⟩
      | (tr, pr, .ok vdir) =>
        finish_install env args.verbose project_root triplet vdir tr (pr1 ++ pr)

/-! ## Helper lemmas -/

/-- The function `run_command` always hands exactly its computed argument vector to
`subprocess.run`, whatever the outcome. -/
theorem run_command_trace (env : Env) (cmd : Cmd) (cwd : Option String)
    (capture : Bool) :
    (run_command env cmd cwd capture).trace = [argvOf cmd] := by
  unfold run_command
  dsimp only
  split <;> split <;> rfl

/-- No token produced by `splitWsAux` contains a whitespace character,
provided the accumulated token does not. -/
theorem splitWsAux_mem_no_ws (l : List Char) :
    ∀ acc, (∀ c ∈ acc, c.isWhitespace = false) →
      ∀ a ∈ splitWsAux l acc, ∀ c ∈ a, c.isWhitespace = false := by
  induction l with
  | nil =>
    intro acc hacc a ha c hc
    unfold splitWsAux at ha
    split at ha
    · simp at ha
    · simp only [List.mem_singleton] at ha
      subst ha
      exact hacc c (List.mem_reverse.mp hc)
  | cons x xs ih =>
    intro acc hacc a ha c hc
    unfold splitWsAux at ha
    by_cases hx : x.isWhitespace = true
    · rw [if_pos hx] at ha
      rcases List.mem_append.mp ha with h1 | h2
      · split at h1
        · simp at h1
        · simp only [List.mem_singleton] at h1
          subst h1
          exact hacc c (List.mem_reverse.mp hc)
      · exact ih [] (by simp) a h2 c hc
    · rw [if_neg hx] at ha
      refine ih (x :: acc) ?_ a ha c hc
      intro c' hc'
      rcases List.mem_cons.mp hc' with rfl | h
      · simpa using hx
      · exact hacc _ h

/-- No element of `pySplit s` contains a whitespace character. -/
theorem pySplit_no_ws (s : String) :
    ∀ a ∈ pySplit s, ∀ c ∈ a.data, c.isWhitespace = false := by
  intro a ha c hc
  unfold pySplit at ha
  rcases List.mem_map.mp ha with ⟨l, hl, rfl⟩
  exact splitWsAux_mem_no_ws s.data [] (by simp) l hl c hc

/-- A minimal environment for concrete witnesses: only the platform strings
matter, no tools resolve, no paths exist, every command succeeds silently. -/
def mkEnv (sys mach : String) : Env :=
  ⟨sys, mach, [], [], fun _ _ => ⟨0, "", ""⟩⟩

/-! ## Claims -/

/-- C1: `get_triplet` returns the documented fixed string for every supported
OS/architecture combination: `x64-mingw-static` on windows, `arm64-osx` on
darwin/arm64, `x64-osx` on darwin with any other machine, and `x64-linux`
otherwise. -/
theorem c1_get_triplet_table (env : Env) :
    (pyLower env.system = "windows" → get_triplet env = "x64-mingw-static") ∧
    (pyLower env.system = "darwin" → pyLower env.machine = "arm64" →
      get_triplet env = "arm64-osx") ∧
    (pyLower env.system = "darwin" → pyLower env.machine ≠ "arm64" →
      get_triplet env = "x64-osx") ∧
    (pyLower env.system ≠ "windows" → pyLower env.system ≠ "darwin" →
      get_triplet env = "x64-linux") := by
  refine ⟨fun h => ?_, fun h hm => ?_, fun h hm => ?_, fun h1 h2 => ?_⟩ <;>
    simp_all [get_triplet]

/-- Witness for C1 at the four concrete platform combinations. -/
theorem c1_get_triplet_table_witness :
    get_triplet (mkEnv "Windows" "AMD64") = "x64-mingw-static" ∧
    get_triplet (mkEnv "Darwin" "arm64") = "arm64-osx" ∧
    get_triplet (mkEnv "Darwin" "x86_64") = "x64-osx" ∧
    get_triplet (mkEnv "Linux" "x86_64") = "x64-linux" :=
  ⟨(c1_get_triplet_table _).1 (by decide),
   (c1_get_triplet_table _).2.1 (by decide) (by decide),
   (c1_get_triplet_table _).2.2.1 (by decide) (by decide),
   (c1_get_triplet_table _).2.2.2 (by decide) (by decide)⟩

/-- C8: a string command is split on whitespace runs into an argument vector
before execution, so no argument executed from string form can contain a
space (or any other whitespace). -/
theorem c8_string_command_split (env : Env) (s : String) (cwd : Option String)
    (capture : Bool) :
    (run_command env (.ofString s) cwd capture).trace = [pySplit s] ∧
    ∀ a ∈ pySplit s, ∀ c ∈ a.data, c.isWhitespace = false :=
  ⟨run_command_trace env (.ofString s) cwd capture, pySplit_no_ws s⟩

/-- Witness for C8 on the concrete string command `git  clone x`. -/
theorem c8_string_command_split_witness :
    (run_command (mkEnv "Linux" "x86_64") (.ofString "git  clone x") none
        false).trace = [["git", "clone", "x"]] ∧
    Char.isWhitespace 'g' = false := by
  constructor
  · rw [(c8_string_command_split (mkEnv "Linux" "x86_64") "git  clone x" none
      false).1]
    decide
  · exact (c8_string_command_split (mkEnv "Linux" "x86_64") "git  clone x" none
      false).2 "git" (by decide) 'g' (by decide)

/-- C9: for every OS that is neither windows nor darwin (freebsd included),
`get_triplet` falls through to `x64-linux` and the compiler required by
`check_dependencies` is gcc; and when such a system is also not linux and a
tool is missing, the remediation hint printed is the Windows choco command. -/
theorem c9_fallthrough_branch (env : Env)
    (hw : pyLower env.system ≠ "windows") (hd : pyLower env.system ≠ "darwin") :
    get_triplet env = "x64-linux" ∧
    "gcc" ∈ required_tools env ∧
    (pyLower env.system ≠ "linux" → (check_dependencies env).1 = false →
      "  choco install cmake ninja git llvm" ∈ (check_dependencies env).2) := by
  refine ⟨by simp [get_triplet, hw, hd], by simp [required_tools, hw, hd], ?_⟩
  intro hl hf
  unfold check_dependencies at hf ⊢
  dsimp only at hf ⊢
  split at hf
  · simp at hf
  · rw [if_neg (by assumption)]
    simp [hw, hd, hl]

/-- Witness for C9 on a freebsd host missing ninja. -/
theorem c9_fallthrough_branch_witness :
    get_triplet (mkEnv "FreeBSD" "amd64") = "x64-linux" ∧
    "gcc" ∈ required_tools (mkEnv "FreeBSD" "amd64") ∧
    "  choco install cmake ninja git llvm" ∈
      (check_dependencies (mkEnv "FreeBSD" "amd64")).2 := by
  have h := c9_fallthrough_branch (mkEnv "FreeBSD" "amd64") (by decide) (by decide)
  exact ⟨h.1, h.2.1, h.2.2 (by decide) (by decide)⟩

/-- C3: when some tool of the required list does not resolve on the search
path, `check_dependencies` returns `false` (no exception is modelled: it is a
total function into `Bool`), `main` returns exit status 1, and no external
command — in particular no install invocation — is executed. -/
theorem c3_missing_tool_aborts (env : Env) (args : Args)
    (project_root t : String)
    (hmem : t ∈ required_tools env) (habs : check_tool env t = false) :
    (check_dependencies env).1 = false ∧
    (main env args project_root).exit = .ok 1 ∧
    (main env args project_root).trace = [] := by
  have hmiss : t ∈ (required_tools env).filter fun x => ! check_tool env x :=
    List.mem_filter.mpr ⟨hmem, by simp [habs]⟩
  have hcd : (check_dependencies env).1 = false := by
    unfold check_dependencies
    dsimp only
    rw [if_neg]
    intro h
    rw [List.isEmpty_iff] at h
    simp [h] at hmiss
  refine ⟨hcd, ?_, ?_⟩ <;> simp [main, hcd]

/-- Witness for C3: a linux host whose search path lacks ninja. -/
theorem c3_missing_tool_aborts_witness :
    (check_dependencies ⟨"Linux", "x86_64", ["git", "cmake", "gcc"], [],
        fun _ _ => ⟨0, "", ""⟩⟩).1 = false ∧
    (main ⟨"Linux", "x86_64", ["git", "cmake", "gcc"], [],
        fun _ _ => ⟨0, "", ""⟩⟩ ⟨false, false, none, none⟩ "/proj").exit =
      .ok 1 ∧
    (main ⟨"Linux", "x86_64", ["git", "cmake", "gcc"], [],
        fun _ _ => ⟨0, "", ""⟩⟩ ⟨false, false, none, none⟩ "/proj").trace =
      [] :=
  c3_missing_tool_aborts _ _ _ "ninja" (by decide) (by decide)

/-- C4: with `--check` and every required tool present, `main` returns exit
status 0 and executes no external command at all: nothing under the tool
checkout or install directories is touched (in this model every
filesystem-modifying operation is an executed command). -/
theorem c4_check_mode_pure (env : Env) (args : Args) (project_root : String)
    (hck : args.check = true)
    (hall : ∀ t ∈ required_tools env, check_tool env t = true) :
    (main env args project_root).exit = .ok 0 ∧
    (main env args project_root).trace = [] := by
  have hnil : ((required_tools env).filter fun x => ! check_tool env x) = [] :=
    List.filter_eq_nil_iff.mpr fun a ha => by simp [hall a ha]
  have hcd : check_dependencies env = (true, []) := by
    unfold check_dependencies
    simp [hnil]
  constructor <;> simp [main, hcd, hck]

/-- Witness for C4: a linux host with all four tools, run with `--check`. -/
theorem c4_check_mode_pure_witness :
    (main ⟨"Linux", "x86_64", ["git", "cmake", "ninja", "gcc"], [],
        fun _ _ => ⟨0, "", ""⟩⟩ ⟨false, true, none, none⟩ "/proj").exit =
      .ok 0 ∧
    (main ⟨"Linux", "x86_64", ["git", "cmake", "ninja", "gcc"], [],
        fun _ _ => ⟨0, "", ""⟩⟩ ⟨false, true, none, none⟩ "/proj").trace =
      [] :=
  c4_check_mode_pure _ _ _ rfl (by decide)

/-- C5: in a run that reaches the vcpkg stage (not `--check`), a nonempty
`--vcpkg-root` naming a nonexistent path makes `main` return exit status 1
with no external command executed — so no clone, pull, bootstrap or install
happens.  (Under `--check` the run exits before the root is examined, per C4;
an empty-string root takes the clone path, per C10.) -/
theorem c5_bad_root_aborts (env : Env) (args : Args) (project_root r : String)
    (hck : args.check = false) (hr : args.vcpkg_root = some r) (hne : r ≠ "")
    (hnx : env.fs_paths.contains r = false) :
    (main env args project_root).exit = .ok 1 ∧
    (main env args project_root).trace = [] := by
  cases hcd : (check_dependencies env).1 with
  | false => constructor <;> simp [main, hcd]
  | true =>
    have hnm : r ∉ env.fs_paths := by simpa using hnx
    constructor <;>
      simp [main, hcd, hck, hr, truthy, bne_iff_ne, hne, hnm]

/-- Witness for C5: a fully-tooled linux host with `--vcpkg-root /missing`. -/
theorem c5_bad_root_aborts_witness :
    (main ⟨"Linux", "x86_64", ["git", "cmake", "ninja", "gcc"], [],
        fun _ _ => ⟨0, "", ""⟩⟩
        ⟨false, false, none, some "/missing"⟩ "/proj").exit = .ok 1 ∧
    (main ⟨"Linux", "x86_64", ["git", "cmake", "ninja", "gcc"], [],
        fun _ _ => ⟨0, "", ""⟩⟩
        ⟨false, false, none, some "/missing"⟩ "/proj").trace = [] :=
  c5_bad_root_aborts _ _ _ "/missing" rfl rfl (by decide) (by decide)

/-- C7: when the platform-specific vcpkg executable (`vcpkg.exe` on windows,
`vcpkg` elsewhere) is not on disk inside the tool directory,
`install_dependencies` raises a `RuntimeError` naming the missing path and
executes no external command. -/
theorem c7_missing_exe_raises (env : Env)
    (vcpkg_dir project_root triplet : String) (verbose : Bool)
    (hmiss : env.fs_paths.contains (vcpkg_dir ++ "/" ++ vcpkg_exe_name env) =
      false) :
    install_dependencies env vcpkg_dir project_root triplet verbose =
      ([], [],
       .error (.runtimeError ("vcpkg executable not found at " ++
         (vcpkg_dir ++ "/" ++ vcpkg_exe_name env)))) := by
  have hnm : vcpkg_dir ++ "/" ++ vcpkg_exe_name env ∉ env.fs_paths := by
    simpa using hmiss
  unfold install_dependencies
  simp [hnm]

/-- Witness for C7 on a linux host with an empty filesystem. -/
theorem c7_missing_exe_raises_witness :
    install_dependencies (mkEnv "Linux" "x86_64") "/vr" "/proj" "x64-linux"
        false =
      ([], [],
       .error (.runtimeError
         ("vcpkg executable not found at " ++ "/vr/vcpkg"))) := by
  have h := c7_missing_exe_raises (mkEnv "Linux" "x86_64") "/vr" "/proj"
    "x64-linux" false (by decide)
  rw [h]
  rfl

/-- C10: an empty string supplied for `--triplet` or `--vcpkg-root` behaves
exactly as if the flag were absent: the whole run of `main` is identical to
the run with both flags unset (so the computed triplet is used and the
clone/bootstrap path is taken), because both flags are tested for Python
truthiness. -/
theorem c10_empty_flags_as_absent (env : Env) (args : Args)
    (project_root : String) :
    main env { args with triplet := some "", vcpkg_root := some "" }
        project_root =
      main env { args with triplet := none, vcpkg_root := none }
        project_root ∧
    resolved_triplet env { args with triplet := some "" } = get_triplet env :=
  by
  constructor
  · unfold main
    simp [truthy, resolved_triplet, py_or_str]
  · simp [resolved_triplet, py_or_str]

/-- C2: a nonempty `--triplet` value `t` is exactly the triplet `main` hands
to the install step (`resolved_triplet`, the embedding of
`args.triplet or get_triplet()`), and every command the install step executes
with that triplet carries the flag `--triplet=t` — the platform-based
`get_triplet` value plays no part.  (An empty-string override falls back to
the computed triplet, per C10.) -/
theorem c2_triplet_override_wins (env : Env) (args : Args)
    (project_root t : String)
    (ht : args.triplet = some t) (hne : t ≠ "") :
    resolved_triplet env args = t ∧
    ∀ vdir : String, ∀ verbose : Bool,
      ∀ c ∈ (install_dependencies env vdir project_root
          (resolved_triplet env args) verbose).1,
        ("--triplet=" ++ t) ∈ c := by
  have h1 : resolved_triplet env args = t := by
    simp [resolved_triplet, py_or_str, ht, hne]
  refine ⟨h1, ?_⟩
  rw [h1]
  intro vdir verbose c hc
  unfold install_dependencies at hc
  dsimp only at hc
  split at hc
  · simp at hc
  · rw [run_command_trace] at hc
    simp only [argvOf, List.mem_singleton] at hc
    subst hc
    cases verbose <;> simp

/-- Supporting concrete host for the C2 witness: all tools present and an
existing external vcpkg root with its executable on disk. -/
def c2Env : Env :=
  ⟨"Linux", "x86_64", ["git", "cmake", "ninja", "gcc"],
   ["/vr", "/vr/vcpkg"], fun _ _ => ⟨0, "", ""⟩⟩

/-- Supporting concrete flags for the C2 witness: an explicit triplet
override and an external root. -/
def c2Args : Args :=
  ⟨false, false, some "custom-triplet", some "/vr"⟩

/-- Witness for C2 with the override `custom-triplet`. -/
theorem c2_triplet_override_wins_witness :
    resolved_triplet c2Env c2Args = "custom-triplet" ∧
    ("--triplet=" ++ "custom-triplet") ∈
      ["/vr/vcpkg", "install", "--triplet=" ++ "custom-triplet",
       "--x-manifest-root=" ++ "/proj",
       "--x-install-root=" ++ ("/proj" ++ "/vcpkg_installed")] := by
  have h := c2_triplet_override_wins c2Env c2Args "/proj" "custom-triplet"
    rfl (by decide)
  refine ⟨h.1, ?_⟩
  refine h.2 "/vr" false _ ?_
  rw [h.1]
  decide

/-- C6: `run_command` in capture mode returns the whitespace-trimmed standard
output when the command exits zero and raises `CalledProcessError` (printing
the captured standard error when nonempty) when it exits nonzero; in
non-capture mode it returns `None` on success and raises on nonzero exit. -/
theorem c6_run_command_modes (env : Env) (cmd : Cmd) (cwd : Option String) :
    ((env.run (argvOf cmd) cwd).returncode = 0 →
      (run_command env cmd cwd true).out =
        .ok (some (pyStrip (env.run (argvOf cmd) cwd).stdout)) ∧
      (run_command env cmd cwd false).out = .ok none) ∧
    ((env.run (argvOf cmd) cwd).returncode ≠ 0 →
      (run_command env cmd cwd true).out =
        .error (.calledProcessError (env.run (argvOf cmd) cwd).returncode
          (some (env.run (argvOf cmd) cwd).stderr)) ∧
      ((env.run (argvOf cmd) cwd).stderr ≠ "" →
        ("Error: " ++ (env.run (argvOf cmd) cwd).stderr) ∈
          (run_command env cmd cwd true).printed) ∧
      (run_command env cmd cwd false).out =
        .error (.calledProcessError (env.run (argvOf cmd) cwd).returncode
          none)) := by
  constructor
  · intro h
    constructor <;> simp [run_command, h]
  · intro h
    refine ⟨?_, ?_, ?_⟩
    · simp [run_command, h]
    · intro hs
      simp [run_command, h, hs]
    · simp [run_command, h]

/-- Supporting concrete host for the C6 witness: the command `ok` succeeds
with padded output, every other command fails with code 2 and standard error
`boom`. -/
def c6Env : Env :=
  ⟨"Linux", "x86_64", [], [],
   fun argv _ => if argv = ["ok"] then ⟨0, " out ", ""⟩
     else ⟨2, "", "boom"⟩⟩

/-- Witness for C6 on a succeeding and a failing concrete command. -/
theorem c6_run_command_modes_witness :
    (run_command c6Env (.ofList ["ok"]) none true).out =
      .ok (some (pyStrip " out ")) ∧
    (run_command c6Env (.ofList ["ok"]) none false).out = .ok none ∧
    (run_command c6Env (.ofList ["bad"]) none true).out =
      .error (.calledProcessError 2 (some "boom")) ∧
    ("Error: " ++ "boom") ∈
      (run_command c6Env (.ofList ["bad"]) none true).printed ∧
    (run_command c6Env (.ofList ["bad"]) none false).out =
      .error (.calledProcessError 2 none) := by
  have hok := (c6_run_command_modes c6Env (.ofList ["ok"]) none).1 (by decide)
  have hbad := (c6_run_command_modes c6Env (.ofList ["bad"]) none).2 (by decide)
  exact ⟨hok.1, hok.2, hbad.1, hbad.2.1 (by decide), hbad.2.2⟩

end SetupDeps
